import Mathlib

/-!
Verification of the DGT3000 BLE Gateway core against its specification.

This development gives a shallow embedding, in Lean, of the parts of the
firmware relevant to the checked properties:

* the DGT3000 link layer (`DGT3000.cpp` / `DGT3000.h`): CRC-8-ATM framing
  (`calculateCRC`, `verifyCRC`), the 16-slot button event ring buffer
  (`addButtonEvent`, `getButtonEvent`), inbound frame handlers
  (`processTimeMessage`, `processButtonMessage`), the configuration
  sequence (`configure`) and the retried send path (`sendDGTCommand`);
* the I2C task manager (`QueueManager.cpp`): command-queue parsing
  (`processCommand`), the transport-error translation
  (`mapDGTErrorToSystemError`) and the button-repeat monitor
  (`handleButtonRepeat`).

Machine bytes are modelled as `Nat` values below 256, buffers as `List Nat`,
and `uint8` arithmetic is made explicit with `% 256` where overflow matters.
Hardware-effecting sub-operations (I2C transactions, ACK waits) are
abstracted by boolean outcome oracles in the functions that call them;
each such abstraction is noted in the doc comment of the definition.
-/

namespace DGT3000Gateway

/-! ## CRC-8-ATM table and primitives (DGT3000.cpp) -/

/-- The 256-entry CRC-8-ATM lookup table `crc_table` from DGT3000.cpp
(decimal rendering of the hexadecimal source literals). -/
def crc_table : List Nat := [
  0, 7, 14, 9, 28, 27, 18, 21, 56, 63, 54, 49, 36, 35, 42, 45,
  112, 119, 126, 121, 108, 107, 98, 101, 72, 79, 70, 65, 84, 83, 90, 93,
  224, 231, 238, 233, 252, 251, 242, 245, 216, 223, 214, 209, 196, 195, 202, 205,
  144, 151, 158, 153, 140, 139, 130, 133, 168, 175, 166, 161, 180, 179, 186, 189,
  199, 192, 201, 206, 219, 220, 213, 210, 255, 248, 241, 246, 227, 228, 237, 234,
  183, 176, 185, 190, 171, 172, 165, 162, 143, 136, 129, 134, 147, 148, 157, 154,
  39, 32, 41, 46, 59, 60, 53, 50, 31, 24, 17, 22, 3, 4, 13, 10,
  87, 80, 89, 94, 75, 76, 69, 66, 111, 104, 97, 102, 115, 116, 125, 122,
  137, 142, 135, 128, 149, 146, 155, 156, 177, 182, 191, 184, 173, 170, 163, 164,
  249, 254, 247, 240, 229, 226, 235, 236, 193, 198, 207, 200, 221, 218, 211, 212,
  105, 110, 103, 96, 117, 114, 123, 124, 81, 86, 95, 88, 77, 74, 67, 68,
  25, 30, 23, 16, 5, 2, 11, 12, 33, 38, 47, 40, 61, 58, 51, 52,
  78, 73, 64, 71, 82, 85, 92, 91, 118, 113, 120, 127, 106, 109, 100, 99,
  62, 57, 48, 55, 34, 37, 44, 43, 6, 1, 8, 15, 26, 29, 20, 19,
  174, 169, 160, 167, 178, 181, 188, 187, 150, 145, 152, 159, 138, 141, 132, 131,
  222, 217, 208, 215, 194, 197, 204, 203, 230, 225, 232, 239, 250, 253, 244, 243]

/-- Inverse permutation of `crc_table`: `inv_crc_table[crc_table[i]] = i`.
Used only inside proofs, to show that each CRC table step is injective. -/
def inv_crc_table : List Nat := [
  0, 217, 181, 108, 109, 180, 216, 1, 218, 3, 111, 182, 183, 110, 2, 219,
  179, 106, 6, 223, 222, 7, 107, 178, 105, 176, 220, 5, 4, 221, 177, 104,
  97, 184, 212, 13, 12, 213, 185, 96, 187, 98, 14, 215, 214, 15, 99, 186,
  210, 11, 103, 190, 191, 102, 10, 211, 8, 209, 189, 100, 101, 188, 208, 9,
  194, 27, 119, 174, 175, 118, 26, 195, 24, 193, 173, 116, 117, 172, 192, 25,
  113, 168, 196, 29, 28, 197, 169, 112, 171, 114, 30, 199, 198, 31, 115, 170,
  163, 122, 22, 207, 206, 23, 123, 162, 121, 160, 204, 21, 20, 205, 161, 120,
  16, 201, 165, 124, 125, 164, 200, 17, 202, 19, 127, 166, 167, 126, 18, 203,
  131, 90, 54, 239, 238, 55, 91, 130, 89, 128, 236, 53, 52, 237, 129, 88,
  48, 233, 133, 92, 93, 132, 232, 49, 234, 51, 95, 134, 135, 94, 50, 235,
  226, 59, 87, 142, 143, 86, 58, 227, 56, 225, 141, 84, 85, 140, 224, 57,
  81, 136, 228, 61, 60, 229, 137, 80, 139, 82, 62, 231, 230, 63, 83, 138,
  65, 152, 244, 45, 44, 245, 153, 64, 155, 66, 46, 247, 246, 47, 67, 154,
  242, 43, 71, 158, 159, 70, 42, 243, 40, 241, 157, 68, 69, 156, 240, 41,
  32, 249, 149, 76, 77, 148, 248, 33, 250, 35, 79, 150, 151, 78, 34, 251,
  147, 74, 38, 255, 254, 39, 75, 146, 73, 144, 252, 37, 36, 253, 145, 72]

/-- One CRC update step `crc = crc_table[crc ^ b]`, the loop body shared by
`calculateCRC` and `verifyCRC`.  Both operands are `uint8` in the source, so
the table index is below 256 whenever the representation invariant holds. -/
def crcStep (crc b : Nat) : Nat := crc_table.getD (crc ^^^ b) 0

/-- Folding `crcStep` over a list of frame bytes, as the `for` loop does. -/
def crcFold (crc : Nat) (bs : List Nat) : Nat := bs.foldl crcStep crc

set_option maxRecDepth 2048 in
theorem crc_table_length : crc_table.length = 256 := by decide

set_option maxRecDepth 2048 in
theorem inv_crc_table_length : inv_crc_table.length = 256 := by decide

set_option maxRecDepth 8192 in
set_option maxHeartbeats 1000000 in
theorem crc_table_getD_lt : ∀ i : Fin 256, crc_table.getD i.val 0 < 256 := by decide

set_option maxRecDepth 8192 in
set_option maxHeartbeats 4000000 in
theorem crc_table_left_inverse :
    ∀ i : Fin 256, inv_crc_table.getD (crc_table.getD i.val 0) 0 = i.val := by decide

theorem crcStep_lt (c b : Nat) : crcStep c b < 256 := by
  unfold crcStep
  by_cases h : c ^^^ b < 256
  · exact crc_table_getD_lt ⟨c ^^^ b, h⟩
  · rw [List.getD_eq_default]
    · omega
    · rw [crc_table_length]; omega

theorem crc_table_getD_inj {a b : Nat} (ha : a < 256) (hb : b < 256)
    (h : crc_table.getD a 0 = crc_table.getD b 0) : a = b := by
  have h1 := crc_table_left_inverse ⟨a, ha⟩
  have h2 := crc_table_left_inverse ⟨b, hb⟩
  simp only at h1 h2
  rw [← h1, ← h2, h]

theorem crcStep_inj_right {c b1 b2 : Nat} (hc : c < 256) (h1 : b1 < 256)
    (h2 : b2 < 256) (h : crcStep c b1 = crcStep c b2) : b1 = b2 := by
  have hx1 : c ^^^ b1 < 256 := Nat.xor_lt_two_pow (n := 8) hc h1
  have hx2 : c ^^^ b2 < 256 := Nat.xor_lt_two_pow (n := 8) hc h2
  have := crc_table_getD_inj hx1 hx2 h
  have e1 : c ^^^ (c ^^^ b1) = c ^^^ (c ^^^ b2) := by rw [this]
  rwa [Nat.xor_cancel_left, Nat.xor_cancel_left] at e1

theorem crcStep_inj_left {c1 c2 b : Nat} (h1 : c1 < 256) (h2 : c2 < 256)
    (hb : b < 256) (h : crcStep c1 b = crcStep c2 b) : c1 = c2 := by
  have hx1 : c1 ^^^ b < 256 := Nat.xor_lt_two_pow (n := 8) h1 hb
  have hx2 : c2 ^^^ b < 256 := Nat.xor_lt_two_pow (n := 8) h2 hb
  have := crc_table_getD_inj hx1 hx2 h
  have e1 : (c1 ^^^ b) ^^^ b = (c2 ^^^ b) ^^^ b := by rw [this]
  rwa [Nat.xor_cancel_right, Nat.xor_cancel_right] at e1

theorem crcFold_inj : ∀ (bs : List Nat) {c1 c2 : Nat}, (∀ b ∈ bs, b < 256) →
    c1 < 256 → c2 < 256 → crcFold c1 bs = crcFold c2 bs → c1 = c2 := by
  intro bs
  induction bs with
  | nil => intro c1 c2 _ _ _ h; exact h
  | cons b rest ih =>
    intro c1 c2 hmem h1 h2 h
    have hb : b < 256 := hmem b (List.mem_cons_self b rest)
    have hrest : ∀ x ∈ rest, x < 256 := fun x hx => hmem x (List.mem_cons_of_mem b hx)
    have hstep : crcStep c1 b = crcStep c2 b :=
      ih hrest (crcStep_lt c1 b) (crcStep_lt c2 b) h
    exact crcStep_inj_left h1 h2 hb hstep

theorem crcFold_set_ne : ∀ (l : List Nat) (i : Nat) {c bNew : Nat},
    (∀ x ∈ l, x < 256) → c < 256 → bNew < 256 → i < l.length →
    bNew ≠ l.getD i 0 → crcFold c (l.set i bNew) ≠ crcFold c l := by
  intro l
  induction l with
  | nil => intro i _ _ _ _ _ hi _; simp at hi
  | cons b rest ih =>
    intro i c bNew hmem hc hNew hi hne
    have hb : b < 256 := hmem b (List.mem_cons_self b rest)
    have hrest : ∀ x ∈ rest, x < 256 := fun x hx => hmem x (List.mem_cons_of_mem b hx)
    cases i with
    | zero =>
      simp only [List.set_cons_zero, crcFold, List.foldl_cons]
      intro h
      have : crcStep c bNew = crcStep c b :=
        crcFold_inj rest hrest (crcStep_lt c bNew) (crcStep_lt c b) h
      exact hne (crcStep_inj_right hc hNew hb this)
    | succ j =>
      simp only [List.set_cons_succ, crcFold, List.foldl_cons]
      refine ih j hrest (crcStep_lt c b) hNew ?_ ?_
      · simpa using hi
      · simpa using hne

/-! ## calculateCRC / verifyCRC (DGT3000.cpp lines 1370-1423) -/

/-- The raw CRC position `buffer[1] - 1` computed in `uint8` arithmetic
(so a zero length field wraps to 255), before the clamp against `length`. -/
def crcLenRaw (buffer : List Nat) : Nat := (buffer.getD 1 0 + 255) % 256

/-- The clamped CRC position: `crc_length` after
`if (crc_length >= length) crc_length = length - 1;`. -/
def crcPos (buffer : List Nat) (length : Nat) : Nat :=
  if length ≤ crcLenRaw buffer then length - 1 else crcLenRaw buffer

/-- The CRC value both functions compute: seed 0, first consume the
destination address byte `0x10`, then the frame bytes before the CRC slot. -/
def crcOf (buffer : List Nat) (length : Nat) : Nat :=
  crcFold (crcStep 0 16) (buffer.take (crcPos buffer length))

/-- `DGT3000::calculateCRC`: returns the buffer with the CRC written into
the clamped CRC slot, together with the returned CRC value.  The error
branch (`length < 3`) leaves the buffer untouched and returns 0. -/
def calculateCRC (buffer : List Nat) (length : Nat) : List Nat × Nat :=
  if length < 3 then (buffer, 0)
  else (buffer.set (crcPos buffer length) (crcOf buffer length), crcOf buffer length)

/-- `DGT3000::verifyCRC`: recompute the CRC and compare with the byte in
the clamped CRC slot; the error branch (`length < 3`) returns false. -/
def verifyCRC (buffer : List Nat) (length : Nat) : Bool :=
  if length < 3 then false
  else crcOf buffer length == buffer.getD (crcPos buffer length) 0

/-- Variant of `crcOf` whose seeded destination-address byte is a
parameter, used to state what happens when the CRC is seeded with a byte
other than `0x10`. -/
def crcOfSeed (seed : Nat) (buffer : List Nat) (length : Nat) : Nat :=
  crcFold (crcStep 0 seed) (buffer.take (crcPos buffer length))

/-- `verifyCRC` with the seeded destination-address byte as a parameter. -/
def verifyCRCSeed (seed : Nat) (buffer : List Nat) (length : Nat) : Bool :=
  if length < 3 then false
  else crcOfSeed seed buffer length == buffer.getD (crcPos buffer length) 0

/-- `calculateCRC` on a possibly-null buffer pointer (`none` models the
null pointer, which takes the same error branch as `length < 3`). -/
def calculateCRCOpt : Option (List Nat) → Nat → Option (List Nat) × Nat
  | none, _ => (none, 0)
  | some buffer, length => ((calculateCRC buffer length).1, (calculateCRC buffer length).2)

/-- `verifyCRC` on a possibly-null buffer pointer. -/
def verifyCRCOpt : Option (List Nat) → Nat → Bool
  | none, _ => false
  | some buffer, length => verifyCRC buffer length

/-- C10: both CRC functions clamp the CRC slot derived from the frame
length field to at most `length - 1`, so every buffer index they read or
write (index 1, the loop indices below the slot, and the slot itself)
lies within `[0, length - 1]` even when the length field exceeds the real
buffer length; and for `length < 3` or a null buffer both take the error
branch, returning 0 respectively false without touching the buffer. -/
theorem crc_index_clamped_and_error_branch :
    (∀ (buffer : List Nat) (length : Nat), 3 ≤ length →
      crcPos buffer length ≤ length - 1 ∧ 1 ≤ length - 1) ∧
    (∀ (buffer : List Nat) (length : Nat), length < 3 →
      calculateCRC buffer length = (buffer, 0) ∧ verifyCRC buffer length = false) ∧
    (∀ length : Nat,
      calculateCRCOpt none length = (none, 0) ∧ verifyCRCOpt none length = false) := by
  refine ⟨?_, ?_, ?_⟩
  · intro buffer length h3
    constructor
    · unfold crcPos
      split
      · omega
      · omega
    · omega
  · intro buffer length hlt
    constructor
    · unfold calculateCRC
      simp [hlt]
    · unfold verifyCRC
      simp [hlt]
  · intro length
    exact ⟨rfl, rfl⟩

/-- Witness for `crc_index_clamped_and_error_branch` at concrete inputs:
a frame whose length field 200 exceeds the actual length 5 keeps the CRC
slot at index 4, and a 2-byte call takes the error branch. -/
theorem crc_index_clamped_and_error_branch_witness :
    (crcPos [32, 200, 6, 0, 0] 5 ≤ 5 - 1 ∧ 1 ≤ 5 - 1) ∧
    (calculateCRC [32, 200] 2 = ([32, 200], 0) ∧ verifyCRC [32, 200] 2 = false) := by
  exact ⟨(crc_index_clamped_and_error_branch.1 [32, 200, 6, 0, 0] 5 (by decide)),
    (crc_index_clamped_and_error_branch.2.1 [32, 200] 2 (by decide))⟩

theorem crcFold_lt {c : Nat} (bs : List Nat) (hc : c < 256) : crcFold c bs < 256 := by
  induction bs generalizing c with
  | nil => exact hc
  | cons b rest ih => exact ih (crcStep_lt c b)

theorem crcPos_of_lenField {F : List Nat} {n : Nat} (h3 : 3 ≤ n) (h256 : n < 256)
    (hlen : F.getD 1 0 = n) : crcPos F n = n - 1 := by
  unfold crcPos crcLenRaw
  rw [hlen]
  have hmod : (n + 255) % 256 = n - 1 := by omega
  rw [hmod]
  split
  · rfl
  · omega

/-- C1 (amended): for a frame `F` of length `n ≥ 3` whose length field
`F[1]` equals `n` and whose bytes are below 256, `verifyCRC` accepts the
buffer stamped by `calculateCRC`; flipping any single bit of any byte at
an index in `[0, n-2]` other than index 1 (the length field) makes
`verifyCRC` reject; and seeding the CRC with any byte other than `0x10`
makes verification fail. -/
theorem crc_roundtrip_bitflip_seed (F : List Nat) (n : Nat)
    (hn : F.length = n) (h3 : 3 ≤ n) (h256 : n < 256)
    (hlen : F.getD 1 0 = n) (hmem : ∀ b ∈ F, b < 256) :
    verifyCRC (calculateCRC F n).1 n = true ∧
    (∀ i k : Nat, i ≤ n - 2 → i ≠ 1 → k < 8 →
      verifyCRC (((calculateCRC F n).1).set i
        (((calculateCRC F n).1).getD i 0 ^^^ 2 ^ k)) n = false) ∧
    (∀ s : Nat, s < 256 → s ≠ 16 →
      verifyCRCSeed s (calculateCRC F n).1 n = false) := by
  have hp : crcPos F n = n - 1 := crcPos_of_lenField h3 h256 hlen
  have hnlt : ¬ n < 3 := by omega
  set c := crcOf F n with hc
  have hclt : c < 256 := crcFold_lt _ (crcStep_lt 0 16)
  have hcalc : (calculateCRC F n).1 = F.set (n - 1) c := by
    unfold calculateCRC
    rw [if_neg hnlt, hp]
  set Fc := F.set (n - 1) c with hFc
  have hFclen : Fc.length = n := by rw [hFc, List.length_set, hn]
  have hFmem : ∀ x ∈ Fc, x < 256 := by
    intro x hx
    rcases List.mem_or_eq_of_mem_set hx with h | h
    · exact hmem x h
    · omega
  have hFc1 : Fc.getD 1 0 = n := by
    rw [hFc, List.getD_eq_getElem _ _ (by rw [List.length_set, hn]; omega)]
    rw [List.getElem_set_ne (by omega)]
    rw [← List.getD_eq_getElem _ 0 (by omega : 1 < F.length)]
    exact hlen
  have hpFc : crcPos Fc n = n - 1 := crcPos_of_lenField h3 h256 hFc1
  have htake : Fc.take (n - 1) = F.take (n - 1) := by
    rw [hFc, List.set_take, List.set_eq_of_length_le]
    rw [List.length_take, hn]
    omega
  have hcFc : crcOf Fc n = c := by
    unfold crcOf
    rw [hpFc, htake, hc]
    unfold crcOf
    rw [hp]
  have hslot : Fc.getD (n - 1) 0 = c := by
    rw [hFc, List.getD_eq_getElem _ _ (by rw [List.length_set, hn]; omega)]
    exact List.getElem_set_self (by rw [List.length_set, hn]; omega)
  refine ⟨?_, ?_, ?_⟩
  · rw [hcalc]
    unfold verifyCRC
    rw [if_neg hnlt, hpFc, hcFc, hslot]
    exact beq_self_eq_true c
  · intro i k hi hine hk
    rw [hcalc]
    have hilt : i < n - 1 := by omega
    set b := Fc.getD i 0 with hb
    have hblt : b < 256 := by
      rw [hb, List.getD_eq_getElem _ _ (by omega : i < Fc.length)]
      exact hFmem _ (List.getElem_mem _)
    have h2k : (2 : Nat) ^ k < 256 := by
      calc (2 : Nat) ^ k < 2 ^ 8 := Nat.pow_lt_pow_right one_lt_two hk
      _ = 256 := by norm_num
    have hxlt : b ^^^ 2 ^ k < 256 := Nat.xor_lt_two_pow (n := 8) hblt h2k
    have hxne : b ^^^ 2 ^ k ≠ b := by
      intro h
      have h2 : b ^^^ 2 ^ k = b ^^^ 0 := by simpa using h
      have := (Nat.xor_right_injective (n := b)) h2
      have hpos : 0 < (2 : Nat) ^ k := Nat.pos_pow_of_pos k (by omega)
      omega
    set G := Fc.set i (b ^^^ 2 ^ k) with hG
    have hGlen : G.length = n := by rw [hG, List.length_set, hFclen]
    have hG1 : G.getD 1 0 = n := by
      rw [hG, List.getD_eq_getElem _ _
        (by simp only [List.length_set, hFclen]; omega : 1 < (Fc.set i _).length)]
      rw [List.getElem_set_ne (by omega)]
      rw [← List.getD_eq_getElem _ 0 (by omega : 1 < Fc.length)]
      exact hFc1
    have hpG : crcPos G n = n - 1 := crcPos_of_lenField h3 h256 hG1
    have hGslot : G.getD (n - 1) 0 = c := by
      rw [hG, List.getD_eq_getElem _ _
        (by simp only [List.length_set, hFclen]; omega : n - 1 < (Fc.set i _).length)]
      rw [List.getElem_set_ne (by omega)]
      rw [← List.getD_eq_getElem _ 0 (by omega : n - 1 < Fc.length)]
      exact hslot
    have htakeG : G.take (n - 1) = (Fc.take (n - 1)).set i (b ^^^ 2 ^ k) := by
      rw [hG, List.set_take]
    have htklen : (Fc.take (n - 1)).length = n - 1 := by
      rw [List.length_take, hFclen]
      omega
    have htkmem : ∀ x ∈ Fc.take (n - 1), x < 256 :=
      fun x hx => hFmem x (List.mem_of_mem_take hx)
    have htkget : (Fc.take (n - 1)).getD i 0 = b := by
      rw [List.getD_eq_getElem _ _ (by omega : i < (Fc.take (n - 1)).length)]
      rw [List.getElem_take]
      rw [hb, List.getD_eq_getElem _ 0 (by omega : i < Fc.length)]
    have hne : crcOf G n ≠ c := by
      unfold crcOf
      rw [hpG, htakeG]
      have := crcFold_set_ne (Fc.take (n - 1)) i htkmem (crcStep_lt 0 16) hxlt
        (by omega) (by rw [htkget]; exact hxne)
      intro hcontra
      apply this
      rw [hcontra, ← hcFc]
      unfold crcOf
      rw [hpFc]
    unfold verifyCRC
    rw [if_neg hnlt, hpG, hGslot]
    exact beq_eq_false_iff_ne.mpr hne
  · intro s hs hsne
    rw [hcalc]
    have hne : crcOfSeed s Fc n ≠ crcOf Fc n := by
      unfold crcOfSeed crcOf
      rw [hpFc]
      intro h
      have hmemtk : ∀ x ∈ Fc.take (n - 1), x < 256 :=
        fun x hx => hFmem x (List.mem_of_mem_take hx)
      have hstep : crcStep 0 s = crcStep 0 16 :=
        crcFold_inj _ hmemtk (crcStep_lt 0 s) (crcStep_lt 0 16) h
      exact hsne (crcStep_inj_right (by omega) hs (by omega) hstep)
    unfold verifyCRCSeed
    rw [if_neg hnlt, hpFc, hslot]
    rw [hcFc] at hne
    exact beq_eq_false_iff_ne.mpr hne

/-- Witness for `crc_roundtrip_bitflip_seed` on the concrete 5-byte
ChangeState frame `[0x20, 0x05, 0x0b, 0x00, _]`: the stamped frame
verifies, flipping bit 0 of byte 0 breaks verification, and seeding with
`0x11` instead of `0x10` breaks verification. -/
theorem crc_roundtrip_bitflip_seed_witness :
    verifyCRC (calculateCRC [32, 5, 11, 0, 0] 5).1 5 = true ∧
    verifyCRC (((calculateCRC [32, 5, 11, 0, 0] 5).1).set 0
      (((calculateCRC [32, 5, 11, 0, 0] 5).1).getD 0 0 ^^^ 2 ^ 0)) 5 = false ∧
    verifyCRCSeed 17 (calculateCRC [32, 5, 11, 0, 0] 5).1 5 = false := by
  have h := crc_roundtrip_bitflip_seed [32, 5, 11, 0, 0] 5 (by decide) (by decide)
    (by decide) (by decide) (by decide)
  exact ⟨h.1, h.2.1 0 0 (by decide) (by decide) (by decide),
    h.2.2 17 (by decide) (by decide)⟩

/-- Counterexample to C1 as stated: for the 3-byte frame `F = [197, 3, 0]`
(`n = 3`, length field `F[1] = 3`), flipping the single bit 0 of byte
index 1 — an index in `F[0..n-2]` — on the buffer stamped by
`calculateCRC` leaves `verifyCRC` returning true, because the modified
length field shrinks the clamped CRC window to position 1 and the byte
there happens to match the shortened CRC. -/
theorem crc_bitflip_counterexample :
    (calculateCRC [197, 3, 0] 3).1 = [197, 3, 7] ∧
    (1 : Nat) ≤ 3 - 2 ∧
    verifyCRC (((calculateCRC [197, 3, 0] 3).1).set 1
      (((calculateCRC [197, 3, 0] 3).1).getD 1 0 ^^^ 2 ^ 0)) 3 = true := by
  refine ⟨?_, by omega, ?_⟩ <;> decide

/-! ## Button event ring buffer (DGT3000.cpp lines 641-656 and 1052-1075) -/

/-- The circular button-event buffer inside `_rxData`: a 16-slot array
`buttonBuffer` with read index `buttonStart` and write index `buttonEnd`. -/
structure ButtonRing where
  buttonBuffer : List Nat
  buttonStart : Nat
  buttonEnd : Nat
deriving DecidableEq

/-- The state after `resetRxData()` zeroes the structure. -/
def emptyButtonRing : ButtonRing := ⟨List.replicate 16 0, 0, 0⟩

/-- `DGT3000::isButtonBufferFull`. -/
def isButtonBufferFull (s : ButtonRing) : Bool :=
  (s.buttonEnd + 1) % 16 == s.buttonStart

/-- `DGT3000::addButtonEvent`: write at `buttonEnd` and advance it; when
full, additionally advance `buttonStart`, overwriting the oldest event. -/
def addButtonEvent (s : ButtonRing) (button : Nat) : ButtonRing :=
  if !isButtonBufferFull s then
    { s with buttonBuffer := s.buttonBuffer.set s.buttonEnd button,
             buttonEnd := (s.buttonEnd + 1) % 16 }
  else
    { buttonBuffer := s.buttonBuffer.set s.buttonEnd button,
      buttonStart := (s.buttonStart + 1) % 16,
      buttonEnd := (s.buttonEnd + 1) % 16 }

/-- `DGT3000::getButtonEvent` (the buffer part, with the guards on
`_initialized` and the out-pointer stripped): `none` models the
empty-buffer return of `false` with `*button = 0`. -/
def getButtonEvent (s : ButtonRing) : ButtonRing × Option Nat :=
  if s.buttonStart == s.buttonEnd then (s, none)
  else ({ s with buttonStart := (s.buttonStart + 1) % 16 },
        some (s.buttonBuffer.getD s.buttonStart 0))

/-- Successive `getButtonEvent` calls, collected until the buffer reports
empty; the fuel bounds the number of reads. -/
def drainAux : Nat → ButtonRing → List Nat
  | 0, _ => []
  | fuel + 1, s =>
    match (getButtonEvent s).2 with
    | none => []
    | some b => b :: drainAux fuel (getButtonEvent s).1

/-- All events readable by successive `getButtonEvent` calls (16 reads
always suffice for a 16-slot ring). -/
def drainButtonEvents (s : ButtonRing) : List Nat := drainAux 16 s

/-- A sequence of `addButtonEvent` pushes with no intervening reads. -/
def pushAll (s : ButtonRing) (events : List Nat) : ButtonRing :=
  events.foldl addButtonEvent s

theorem addButtonEvent_linear (l : List Nat) (b : Nat) (hl : l.length ≤ 14) :
    addButtonEvent ⟨l ++ List.replicate (16 - l.length) 0, 0, l.length⟩ b =
      ⟨(l ++ [b]) ++ List.replicate (16 - (l.length + 1)) 0, 0, l.length + 1⟩ := by
  have hfull : isButtonBufferFull ⟨l ++ List.replicate (16 - l.length) 0, 0, l.length⟩ = false := by
    unfold isButtonBufferFull
    simp only
    rw [Nat.mod_eq_of_lt (by omega)]
    simp
  unfold addButtonEvent
  rw [hfull]
  simp only [Bool.not_false, if_true]
  have hbuf : (l ++ List.replicate (16 - l.length) 0).set l.length b =
      (l ++ [b]) ++ List.replicate (16 - (l.length + 1)) 0 := by
    rw [List.set_append]
    rw [if_neg (by omega)]
    have hrep : List.replicate (16 - l.length) 0 = 0 :: List.replicate (15 - l.length) (0 : Nat) := by
      rw [show 16 - l.length = (15 - l.length) + 1 by omega, List.replicate_succ]
    rw [hrep]
    simp only [Nat.sub_self, List.set_cons_zero]
    rw [List.append_assoc, List.singleton_append,
      show 16 - (l.length + 1) = 15 - l.length from by omega]
  rw [hbuf]
  congr 1
  rw [Nat.mod_eq_of_lt (show l.length + 1 < 16 by omega)]

theorem pushAll_empty_state : ∀ (events : List Nat), events.length ≤ 15 →
    pushAll emptyButtonRing events =
      ⟨events ++ List.replicate (16 - events.length) 0, 0, events.length⟩ := by
  intro events
  induction events using List.reverseRecOn with
  | nil => intro _; rfl
  | append_singleton l b ih =>
    intro hlen
    rw [List.length_append, List.length_singleton] at hlen
    unfold pushAll
    rw [List.foldl_append, List.foldl_cons, List.foldl_nil]
    have hstate := ih (by omega)
    unfold pushAll at hstate
    rw [hstate]
    have := addButtonEvent_linear l b (by omega)
    rw [this]
    simp [List.length_append]

theorem drainAux_linear : ∀ (d fuel j len : Nat) (buf : List Nat),
    buf.length = 16 → len - j = d → j ≤ len → len ≤ 15 → d ≤ fuel →
    drainAux fuel ⟨buf, j, len⟩ = (buf.take len).drop j := by
  intro d
  induction d with
  | zero =>
    intro fuel j len buf hbuf hd hj hlen hfuel
    have hje : j = len := by omega
    subst hje
    have hdrop : (buf.take j).drop j = [] := by
      apply List.drop_eq_nil_of_le
      rw [List.length_take]
      omega
    cases fuel with
    | zero => rw [hdrop]; rfl
    | succ f =>
      unfold drainAux getButtonEvent
      simp only [beq_self_eq_true, if_true]
      rw [hdrop]
  | succ d ih =>
    intro fuel j len buf hbuf hd hj hlen hfuel
    have hjlt : j < len := by omega
    obtain ⟨f, rfl⟩ : ∃ f, fuel = f + 1 := ⟨fuel - 1, by omega⟩
    unfold drainAux getButtonEvent
    have hne : (j == len) = false := by simp; omega
    simp only [hne, Bool.false_eq_true, if_false]
    have hmod : (j + 1) % 16 = j + 1 := Nat.mod_eq_of_lt (by omega)
    rw [hmod]
    rw [ih f (j + 1) len buf hbuf (by omega) (by omega) hlen (by omega)]
    have hjtk : j < (buf.take len).length := by
      rw [List.length_take]
      omega
    rw [List.drop_eq_getElem_cons hjtk]
    congr 1
    rw [List.getElem_take]
    rw [List.getD_eq_getElem _ 0 (by omega : j < buf.length)]

theorem drainAux_wrapped : ∀ (d fuel j : Nat) (buf : List Nat),
    buf.length = 16 → 16 - j = d → 1 ≤ j → j ≤ 15 → d < fuel →
    drainAux fuel ⟨buf, j, 0⟩ = buf.drop j := by
  intro d
  induction d with
  | zero => intro fuel j buf _ hd _ hj _; omega
  | succ d ih =>
    intro fuel j buf hbuf hd hj1 hj15 hfuel
    obtain ⟨f, rfl⟩ : ∃ f, fuel = f + 1 := ⟨fuel - 1, by omega⟩
    unfold drainAux getButtonEvent
    have hne : (j == 0) = false := by simp; omega
    simp only [hne, Bool.false_eq_true, if_false]
    have hjd : buf.drop j = buf.getD j 0 :: buf.drop (j + 1) := by
      rw [List.drop_eq_getElem_cons (by omega : j < buf.length)]
      rw [List.getD_eq_getElem _ 0 (by omega : j < buf.length)]
    rw [hjd]
    by_cases hj : j = 15
    · subst hj
      have hdrop : buf.drop 16 = [] := List.drop_eq_nil_of_le (by omega)
      rw [hdrop]
      have h16 : (15 + 1) % 16 = 0 := by norm_num
      rw [h16]
      cases f with
      | zero => rfl
      | succ g =>
        unfold drainAux getButtonEvent
        simp
    · have hmod : (j + 1) % 16 = j + 1 := Nat.mod_eq_of_lt (by omega)
      rw [hmod]
      rw [ih f (j + 1) buf hbuf (by omega) (by omega) (by omega) (by omega)]

/-- C2 (amended): the 16-slot ring holds at most 15 events.  After any
`k ≤ 15` pushes from the empty buffer with no intervening reads,
successive `getButtonEvent` calls return all `k` pushed events in
insertion order; after a 16th push with no read, the oldest event is
dropped and the readable sequence equals the last 15 pushed. -/
theorem button_ring_order_amended :
    (∀ events : List Nat, events.length ≤ 15 →
      drainButtonEvents (pushAll emptyButtonRing events) = events) ∧
    (∀ events : List Nat, events.length = 16 →
      drainButtonEvents (pushAll emptyButtonRing events) = events.drop 1) := by
  constructor
  · intro events hlen
    rw [pushAll_empty_state events hlen]
    unfold drainButtonEvents
    rw [drainAux_linear events.length 16 0 events.length _
      (by rw [List.length_append, List.length_replicate]; omega)
      (by omega) (by omega) hlen (by omega)]
    rw [List.drop_zero]
    exact List.take_left events _
  · intro events hlen
    obtain ⟨l, b, rfl⟩ : ∃ l b, events = l ++ [b] := by
      rcases events.eq_nil_or_concat with rfl | ⟨l, b, h⟩
      · simp at hlen
      · exact ⟨l, b, by rw [h, List.concat_eq_append]⟩
    · rw [List.length_append, List.length_singleton] at hlen
      unfold pushAll
      rw [List.foldl_append, List.foldl_cons, List.foldl_nil]
      have hstate := pushAll_empty_state l (by omega)
      unfold pushAll at hstate
      rw [hstate]
      have hfull : isButtonBufferFull ⟨l ++ List.replicate (16 - l.length) 0, 0, l.length⟩ = true := by
        unfold isButtonBufferFull
        simp only
        rw [show l.length + 1 = 16 by omega]
        simp
      unfold addButtonEvent
      rw [hfull]
      simp only [Bool.not_true, Bool.false_eq_true, if_false]
      have hbuf : (l ++ List.replicate (16 - l.length) 0).set l.length b = l ++ [b] := by
        rw [show 16 - l.length = 1 by omega]
        rw [List.set_append, if_neg (by omega)]
        simp only [Nat.sub_self, List.replicate_one, List.set_cons_zero]
      rw [hbuf]
      simp only [show l.length + 1 = 16 by omega, Nat.reduceMod, Nat.zero_add]
      unfold drainButtonEvents
      rw [drainAux_wrapped 15 16 1 (l ++ [b])
        (by rw [List.length_append, List.length_singleton]; omega)
        (by omega) (by omega) (by omega) (by omega)]

/-- Witness for `button_ring_order_amended`: three pushes read back in
order, and a 16-element push sequence reads back as its last 15 events. -/
theorem button_ring_order_amended_witness :
    drainButtonEvents (pushAll emptyButtonRing [7, 8, 9]) = [7, 8, 9] ∧
    drainButtonEvents (pushAll emptyButtonRing
        [1, 2, 3, 4, 5, 6, 7, 8, 9, 10, 11, 12, 13, 14, 15, 16]) =
      [1, 2, 3, 4, 5, 6, 7, 8, 9, 10, 11, 12, 13, 14, 15, 16].drop 1 := by
  exact ⟨button_ring_order_amended.1 [7, 8, 9] (by decide),
    button_ring_order_amended.2 [1, 2, 3, 4, 5, 6, 7, 8, 9, 10, 11, 12, 13, 14, 15, 16]
      (by decide)⟩

/-- Counterexample to C2 as stated: pushing the 16 events `1..16` into the
empty ring and then reading returns `[2, ..., 16]` — the first pushed
event is already dropped at the 16th push, so reads do not return the
first 16 pushed events in insertion order. -/
theorem button_ring_counterexample :
    drainButtonEvents (pushAll emptyButtonRing
        [1, 2, 3, 4, 5, 6, 7, 8, 9, 10, 11, 12, 13, 14, 15, 16]) =
      [2, 3, 4, 5, 6, 7, 8, 9, 10, 11, 12, 13, 14, 15, 16] ∧
    ([2, 3, 4, 5, 6, 7, 8, 9, 10, 11, 12, 13, 14, 15, 16] ≠
      [1, 2, 3, 4, 5, 6, 7, 8, 9, 10, 11, 12, 13, 14, 15, 16]) := by
  constructor
  · decide
  · decide

/-! ## processButtonMessage (DGT3000.cpp lines 1306-1344) -/

/-- The receive-side state touched by `processButtonMessage`: the event
ring plus `_rxData.lastButtonState`. -/
structure ButtonRx where
  ring : ButtonRing
  lastButtonState : Nat
deriving DecidableEq

/-- The sequence of `addButtonEvent` calls `processButtonMessage` makes
for a state pair `(currentButtons, previousButtons)`: at most one event,
on/off first, then lever, then the main-five press mask. -/
def buttonEventsOf (currentButtons previousButtons : Nat) : List Nat :=
  let changedButtons := currentButtons ^^^ previousButtons
  if changedButtons = 0 then []
  else if changedButtons &&& 32 ≠ 0 then
    [if currentButtons &&& 32 ≠ 0 then 32 else 160]
  else if changedButtons &&& 64 ≠ 0 then
    [if currentButtons &&& 64 ≠ 0 then 192 else 64]
  else
    let mainButtonPressed := changedButtons &&& currentButtons &&& 31
    if mainButtonPressed ≠ 0 then [mainButtonPressed] else []

/-- `DGT3000::processButtonMessage`: guard `length < 5 || buffer[2] != 5`,
then update `lastButtonState` and enqueue the classified event. -/
def processButtonMessage (st : ButtonRx) (buffer : List Nat) (length : Nat) : ButtonRx :=
  if length < 5 ∨ buffer.getD 2 0 ≠ 5 then st
  else
    { ring := (buttonEventsOf (buffer.getD 3 0) (buffer.getD 4 0)).foldl
        addButtonEvent st.ring,
      lastButtonState := buffer.getD 3 0 }

/-- The button classification exactly as the claim words it: priority
order on/off (0x20 bit), then lever (0x40 bit), else the mask
`changed AND current AND 0x1F`, emitted only if non-zero. -/
def buttonEventSpec (current previous : Nat) : Option Nat :=
  let changed := current ^^^ previous
  if changed &&& 32 ≠ 0 then some (if current &&& 32 ≠ 0 then 32 else 160)
  else if changed &&& 64 ≠ 0 then some (if current &&& 64 ≠ 0 then 192 else 64)
  else if changed &&& current &&& 31 ≠ 0 then some (changed &&& current &&& 31)
  else none

/-- C3: every valid inbound button frame pushes exactly the (at most one)
event of the claim's priority scheme into the ring buffer, and updates
`lastButtonState` to the current state byte. -/
theorem processButtonMessage_classification :
    (∀ current previous : Nat,
      buttonEventsOf current previous = (buttonEventSpec current previous).toList ∧
      (buttonEventsOf current previous).length ≤ 1) ∧
    (∀ (st : ButtonRx) (buffer : List Nat) (length : Nat),
      5 ≤ length → buffer.getD 2 0 = 5 →
      processButtonMessage st buffer length =
        { ring := (buttonEventsOf (buffer.getD 3 0) (buffer.getD 4 0)).foldl
            addButtonEvent st.ring,
          lastButtonState := buffer.getD 3 0 }) := by
  constructor
  · intro current previous
    unfold buttonEventsOf buttonEventSpec
    by_cases h0 : current ^^^ previous = 0
    · simp [h0]
    · simp only [h0, if_false]
      split_ifs <;> simp
  · intro st buffer length hlen h2
    unfold processButtonMessage
    rw [if_neg]
    push_neg
    exact ⟨by omega, h2⟩

/-- Witness for `processButtonMessage_classification`: the play/pause
press frame `(current, previous) = (0x04, 0x00)` enqueues exactly the
event `0x04`. -/
theorem processButtonMessage_classification_witness :
    (buttonEventsOf 4 0 = (buttonEventSpec 4 0).toList ∧
      (buttonEventsOf 4 0).length ≤ 1) ∧
    processButtonMessage ⟨emptyButtonRing, 0⟩ [16, 6, 5, 4, 0] 5 =
      { ring := (buttonEventsOf 4 0).foldl addButtonEvent emptyButtonRing,
        lastButtonState := 4 } := by
  exact ⟨processButtonMessage_classification.1 4 0,
    processButtonMessage_classification.2 ⟨emptyButtonRing, 0⟩ [16, 6, 5, 4, 0] 5
      (by decide) (by decide)⟩

/-! ## processTimeMessage (DGT3000.cpp lines 1260-1304) -/

/-- The receive-side state touched by `processTimeMessage`: the six-byte
time snapshot, the `_newTimeAvailable` flag and the connection flags. -/
structure TimeRx where
  time : List Nat
  newTimeAvailable : Bool
  connected : Bool
  configured : Bool
deriving DecidableEq

/-- The BCD decoding lambda `((bcd >> 4) * 10) + (bcd & 0x0F)`. -/
def bcdToDec (bcd : Nat) : Nat := (bcd >>> 4) * 10 + (bcd &&& 15)

/-- The parsed-field validation failing, exactly the condition of the
source `if`: some hour above 9 or some minute/second above 59. -/
def timeFieldsInvalid (buffer : List Nat) : Prop :=
  9 < buffer.getD 10 0 &&& 15 ∨ 59 < bcdToDec (buffer.getD 11 0) ∨
  59 < bcdToDec (buffer.getD 12 0) ∨ 9 < buffer.getD 4 0 &&& 15 ∨
  59 < bcdToDec (buffer.getD 5 0) ∨ 59 < bcdToDec (buffer.getD 6 0)

instance (buffer : List Nat) : Decidable (timeFieldsInvalid buffer) := by
  unfold timeFieldsInvalid
  infer_instance

/-- `DGT3000::processTimeMessage`: drop echo frames, short frames and
frames with a wrong length byte; parse and validate the six fields;
store the snapshot, raise `_newTimeAvailable`, and promote to connected
(dropping `configured`) when not already connected. -/
def processTimeMessage (st : TimeRx) (buffer : List Nat) (length : Nat) : TimeRx :=
  if 19 < length ∧ buffer.getD 19 0 = 1 then st
  else if length < 14 ∨ buffer.getD 1 0 ≠ 24 then st
  else if timeFieldsInvalid buffer then st
  else
    { time := [buffer.getD 4 0 &&& 15, bcdToDec (buffer.getD 5 0),
               bcdToDec (buffer.getD 6 0), buffer.getD 10 0 &&& 15,
               bcdToDec (buffer.getD 11 0), bcdToDec (buffer.getD 12 0)],
      newTimeAvailable := true,
      connected := true,
      configured := if st.connected then st.configured else false }

/-- C7: a time frame that is an echo, too short, carries a wrong length
byte, or parses to fields violating the ClockTime invariants is dropped
in full: the snapshot, the `new_time` flag and the connected/configured
flags are all left unchanged. -/
theorem processTimeMessage_drops_invalid (st : TimeRx) (buffer : List Nat) (length : Nat)
    (h : length < 14 ∨ buffer.getD 1 0 ≠ 24 ∨ (19 < length ∧ buffer.getD 19 0 = 1) ∨
      timeFieldsInvalid buffer) :
    processTimeMessage st buffer length = st := by
  unfold processTimeMessage
  by_cases h1 : 19 < length ∧ buffer.getD 19 0 = 1
  · rw [if_pos h1]
  · rw [if_neg h1]
    by_cases h2 : length < 14 ∨ buffer.getD 1 0 ≠ 24
    · rw [if_pos h2]
    · rw [if_neg h2]
      rw [if_pos]
      rcases h with h | h | h | h
      · exact absurd (Or.inl h) h2
      · exact absurd (Or.inr h) h2
      · exact absurd h h1
      · exact h

/-- Witness for `processTimeMessage_drops_invalid`: a frame announcing the
invalid left-minutes BCD byte 0x99 (153 decimal, decoding to 99 minutes)
leaves the state untouched. -/
theorem processTimeMessage_drops_invalid_witness :
    processTimeMessage ⟨[0, 0, 0, 0, 0, 0], false, true, true⟩
      [16, 24, 4, 0, 1, 153, 0, 0, 0, 0, 1, 0, 0, 0] 14 =
      ⟨[0, 0, 0, 0, 0, 0], false, true, true⟩ := by
  exact processTimeMessage_drops_invalid ⟨[0, 0, 0, 0, 0, 0], false, true, true⟩
    [16, 24, 4, 0, 1, 153, 0, 0, 0, 0, 1, 0, 0, 0] 14
    (Or.inr (Or.inr (Or.inr (by decide))))

/-! ## DGT error codes (DGT3000.h) -/

def DGT_SUCCESS : Int := 0
def DGT_ERROR_I2C_INIT : Int := -1
def DGT_ERROR_I2C_COMM : Int := -2
def DGT_ERROR_TIMEOUT : Int := -3
def DGT_ERROR_NO_ACK : Int := -4
def DGT_ERROR_BUFFER_OVERRUN : Int := -5
def DGT_ERROR_CRC : Int := -6
def DGT_ERROR_CLOCK_OFF : Int := -7
def DGT_ERROR_NOT_CONFIGURED : Int := -8
def DGT_ERROR_INIT_FAILED : Int := -10

/-! ## configure (DGT3000.cpp lines 765-823) -/

/-- The link flags `configure` reads and writes: `_initialized`,
`_recoveryInProgress` (the re-entry guard), `_connected`, `_configured`
and `_lastError`. -/
structure LinkFlags where
  initialized : Bool
  recoveryInProgress : Bool
  connected : Bool
  configured : Bool
  lastError : Int
deriving DecidableEq

/-- Outcomes of the sub-commands `configure` issues, abstracted as
booleans (each sub-command drives the I2C buses; on its own it only ever
clears the connected/configured flags and writes `_lastError`, and
`configure` overwrites both on every path, so the booleans capture all
the state `configure` leaves behind). -/
structure ConfigureOutcomes where
  changeStateFirst : Bool
  ping : Bool
  changeStateRetry : Bool
  setCentralControl : Bool
  changeStateAck : Bool
  setAndRun : Bool
deriving DecidableEq

/-- `DGT3000::configure`: guard on `_initialized` and on the re-entry
flag `_recoveryInProgress`; clear the flags; step 1 ChangeState without
ACK with a ping-and-retry fallback (`CLOCK_OFF` on failure); steps 2-4
SetCentralControl, ChangeState with ACK, SetAndRun all-zeros in Stop
mode (`I2C_COMM` on failure); on success set both flags and report
success.  The guard is set on entry and cleared on every exit, so the
returned state carries the caller's value. -/
def configure (st : LinkFlags) (o : ConfigureOutcomes) : LinkFlags × Bool :=
  if !st.initialized then ({ st with lastError := DGT_ERROR_NOT_CONFIGURED }, false)
  else if st.recoveryInProgress then (st, false)
  else
    let st1 := { st with configured := false, connected := false }
    if !o.changeStateFirst ∧ (!o.ping ∨ !o.changeStateRetry) then
      ({ st1 with lastError := DGT_ERROR_CLOCK_OFF }, false)
    else if !o.setCentralControl then ({ st1 with lastError := DGT_ERROR_I2C_COMM }, false)
    else if !o.changeStateAck then ({ st1 with lastError := DGT_ERROR_I2C_COMM }, false)
    else if !o.setAndRun then ({ st1 with lastError := DGT_ERROR_I2C_COMM }, false)
    else ({ st1 with configured := true, connected := true, lastError := DGT_SUCCESS }, true)

/-- C4: on an initialized link, (1) when the first no-ACK ChangeState
fails and the ping-plus-retry fallback also fails, `configure` returns
false with last error `CLOCK_OFF`, leaving the link neither connected
nor configured; (2) when all four steps succeed, it returns true, sets
configured and connected, and reports success; (3) the re-entry guard
makes a recursive call return false without performing the sequence. -/
theorem configure_contract (st : LinkFlags) (o : ConfigureOutcomes) :
    (st.initialized = true → st.recoveryInProgress = false →
      o.changeStateFirst = false → (o.ping = false ∨ o.changeStateRetry = false) →
      configure st o =
        (⟨true, false, false, false, DGT_ERROR_CLOCK_OFF⟩, false)) ∧
    (st.initialized = true → st.recoveryInProgress = false →
      o.changeStateFirst = true → o.setCentralControl = true →
      o.changeStateAck = true → o.setAndRun = true →
      configure st o = (⟨true, false, true, true, DGT_SUCCESS⟩, true)) ∧
    (st.initialized = true → st.recoveryInProgress = true →
      configure st o = (st, false)) := by
  obtain ⟨i, r, cn, cf, e⟩ := st
  obtain ⟨o1, o2, o3, o4, o5, o6⟩ := o
  refine ⟨?_, ?_, ?_⟩
  · intro hi hr h1 h2
    simp only at hi hr h1
    subst hi hr h1
    rcases h2 with h | h <;> simp only at h <;> subst h <;>
      simp [configure]
  · intro hi hr h1 h4 h5 h6
    simp only at hi hr h1 h4 h5 h6
    subst hi hr h1 h4 h5 h6
    simp [configure]
  · intro hi hr
    simp only at hi hr
    subst hi hr
    simp [configure]

/-- Witness for `configure_contract`: concrete oracle runs of the three
branches from the freshly initialized state. -/
theorem configure_contract_witness :
    configure ⟨true, false, false, false, 0⟩ ⟨false, true, false, true, true, true⟩ =
      (⟨true, false, false, false, DGT_ERROR_CLOCK_OFF⟩, false) ∧
    configure ⟨true, false, false, false, 0⟩ ⟨true, true, true, true, true, true⟩ =
      (⟨true, false, true, true, DGT_SUCCESS⟩, true) ∧
    configure ⟨true, true, false, false, 0⟩ ⟨true, true, true, true, true, true⟩ =
      (⟨true, true, false, false, 0⟩, false) := by
  exact ⟨(configure_contract ⟨true, false, false, false, 0⟩
      ⟨false, true, false, true, true, true⟩).1 rfl rfl rfl (Or.inr rfl),
    (configure_contract ⟨true, false, false, false, 0⟩
      ⟨true, true, true, true, true, true⟩).2.1 rfl rfl rfl rfl rfl rfl,
    (configure_contract ⟨true, true, false, false, 0⟩
      ⟨true, true, true, true, true, true⟩).2.2 rfl rfl⟩

/-! ## sendDGTCommand (DGT3000.cpp lines 1096-1155) -/

/-- The state `sendDGTCommand` touches: the connection flags, the slave
listen address and `_lastError`. -/
structure SendState where
  connected : Bool
  configured : Bool
  listenAddress : Nat
  lastError : Int
deriving DecidableEq

/-- The attempt loop of `sendDGTCommand`, with one `(txOk, ackOk)` oracle
pair per attempt (master transmission result and ACK-wait result; the
hardware calls themselves are abstracted).  An empty outcome list is the
loop falling through all attempts: revert the listen address to 0x00,
mark the connection lost and fail. -/
def sendAttemptsLoop (ackListenAddress : Nat) (numAcks : Nat) (withRetry : Bool)
    (st : SendState) : List (Bool × Bool) → SendState × Bool
  | [] => ({ st with listenAddress := 0, connected := false, configured := false }, false)
  | (txOk, ackOk) :: rest =>
    let st1 := { st with listenAddress := ackListenAddress }
    if !txOk then
      let st2 := { st1 with lastError := DGT_ERROR_I2C_COMM }
      if withRetry then sendAttemptsLoop ackListenAddress numAcks withRetry st2 rest
      else (st2, true)
    else if numAcks = 0 then ({ st1 with lastError := DGT_SUCCESS }, true)
    else if ackOk then ({ st1 with listenAddress := 0, lastError := DGT_SUCCESS }, true)
    else
      let st2 := { st1 with lastError := DGT_ERROR_TIMEOUT }
      let st3 := if rest.isEmpty then st2 else { st2 with lastError := DGT_ERROR_NO_ACK }
      sendAttemptsLoop ackListenAddress numAcks withRetry st3 rest

/-- `DGT3000::sendDGTCommand` on its attempt-outcome oracle: the caller
supplies one outcome pair per attempt, 3 pairs with retry and 1 without
(`maxAttempts = withRetry ? 3 : 1`). -/
def sendDGTCommand (st : SendState) (ackListenAddress numAcks : Nat) (withRetry : Bool)
    (outcomes : List (Bool × Bool)) : SendState × Bool :=
  sendAttemptsLoop ackListenAddress numAcks withRetry st outcomes

theorem sendAttemptsLoop_all_fail (ackListenAddress numAcks : Nat) :
    ∀ (outcomes : List (Bool × Bool)) (st : SendState),
    (∀ p ∈ outcomes, p.1 = false ∨ (numAcks ≠ 0 ∧ p.2 = false)) →
    (sendAttemptsLoop ackListenAddress numAcks true st outcomes).2 = false ∧
    (sendAttemptsLoop ackListenAddress numAcks true st outcomes).1.listenAddress = 0 ∧
    (sendAttemptsLoop ackListenAddress numAcks true st outcomes).1.connected = false ∧
    (sendAttemptsLoop ackListenAddress numAcks true st outcomes).1.configured = false := by
  intro outcomes
  induction outcomes with
  | nil => intro st _; exact ⟨rfl, rfl, rfl, rfl⟩
  | cons p rest ih =>
    intro st hfail
    obtain ⟨tx, ack⟩ := p
    rcases hfail (tx, ack) (List.mem_cons_self _ _) with htx | ⟨hn, hack⟩
    · simp only at htx
      subst htx
      simp only [sendAttemptsLoop, Bool.not_false, if_true]
      exact ih _ (fun q hq => hfail q (List.mem_cons_of_mem _ hq))
    · simp only at hack
      subst hack
      cases tx with
      | false =>
        simp only [sendAttemptsLoop, Bool.not_false, if_true]
        exact ih _ (fun q hq => hfail q (List.mem_cons_of_mem _ hq))
      | true =>
        simp only [sendAttemptsLoop, Bool.not_true, Bool.false_eq_true, if_false,
          if_neg hn, Bool.true_eq_false]
        exact ih _ (fun q hq => hfail q (List.mem_cons_of_mem _ hq))

/-- C8: (1) a single-attempt send (`withRetry = false`) whose master
transmission fails records `I2C_COMM` in the last error but still
returns success; (2) a retried send whose 3 attempts are all exhausted
without success reverts the slave listen address to 0x00, clears the
connected and configured flags, and returns false. -/
theorem sendDGTCommand_contract :
    (∀ (st : SendState) (ackListenAddress numAcks : Nat) (ackOk : Bool),
      sendDGTCommand st ackListenAddress numAcks false [(false, ackOk)] =
        ({ st with listenAddress := ackListenAddress,
                   lastError := DGT_ERROR_I2C_COMM }, true)) ∧
    (∀ (st : SendState) (ackListenAddress numAcks : Nat)
      (outcomes : List (Bool × Bool)), outcomes.length = 3 →
      (∀ p ∈ outcomes, p.1 = false ∨ (numAcks ≠ 0 ∧ p.2 = false)) →
      (sendDGTCommand st ackListenAddress numAcks true outcomes).2 = false ∧
      (sendDGTCommand st ackListenAddress numAcks true outcomes).1.listenAddress = 0 ∧
      (sendDGTCommand st ackListenAddress numAcks true outcomes).1.connected = false ∧
      (sendDGTCommand st ackListenAddress numAcks true outcomes).1.configured = false) := by
  constructor
  · intro st ackListenAddress numAcks ackOk
    simp [sendDGTCommand, sendAttemptsLoop]
  · intro st ackListenAddress numAcks outcomes _ hfail
    exact sendAttemptsLoop_all_fail ackListenAddress numAcks outcomes st hfail

/-- Witness for `sendDGTCommand_contract`: the fire-and-forget wake-up
ping with a failed transmission returns true, and a fully failed retried
ACK send (3 attempts) fails and drops the connection. -/
theorem sendDGTCommand_contract_witness :
    sendDGTCommand ⟨true, true, 0, 0⟩ 0 0 false [(false, false)] =
      (⟨true, true, 0, DGT_ERROR_I2C_COMM⟩, true) ∧
    (sendDGTCommand ⟨true, true, 0, 0⟩ 16 1 true
        [(true, false), (false, false), (true, false)]).2 = false ∧
    (sendDGTCommand ⟨true, true, 0, 0⟩ 16 1 true
        [(true, false), (false, false), (true, false)]).1.listenAddress = 0 ∧
    (sendDGTCommand ⟨true, true, 0, 0⟩ 16 1 true
        [(true, false), (false, false), (true, false)]).1.connected = false ∧
    (sendDGTCommand ⟨true, true, 0, 0⟩ 16 1 true
        [(true, false), (false, false), (true, false)]).1.configured = false := by
  refine ⟨sendDGTCommand_contract.1 ⟨true, true, 0, 0⟩ 0 0 false, ?_⟩
  exact sendDGTCommand_contract.2 ⟨true, true, 0, 0⟩ 16 1
    [(true, false), (false, false), (true, false)] (by decide) (by decide)

/-! ## System error codes (BLEGatewayTypes, referenced from QueueManager.cpp) -/

/-- The `SystemErrorCode` enumeration; the claims only use the symbolic
names, whose numeric assignments the spec leaves implementation-defined. -/
inductive SystemErrorCode where
  | SUCCESS
  | I2C_COMMUNICATION_ERROR
  | DGT_NOT_CONFIGURED
  | I2C_CRC_ERROR
  | DGT_NOT_CONNECTED
  | JSON_PARSE_ERROR
  | JSON_INVALID_COMMAND
  | JSON_INVALID_PARAMETERS
  | COMMAND_TIMEOUT
  | UNKNOWN_ERROR
deriving DecidableEq

/-! ## mapDGTErrorToSystemError (QueueManager.cpp lines 1295-1312) -/

/-- `mapDGTErrorToSystemError`: the source `switch`, whose first case
group also routes `DGT_ERROR_I2C_INIT` to `I2C_COMMUNICATION_ERROR`. -/
def mapDGTErrorToSystemError (dgtError : Int) : SystemErrorCode :=
  if dgtError = DGT_ERROR_I2C_COMM ∨ dgtError = DGT_ERROR_I2C_INIT then
    SystemErrorCode.I2C_COMMUNICATION_ERROR
  else if dgtError = DGT_ERROR_TIMEOUT ∨ dgtError = DGT_ERROR_NO_ACK then
    SystemErrorCode.COMMAND_TIMEOUT
  else if dgtError = DGT_ERROR_NOT_CONFIGURED then SystemErrorCode.DGT_NOT_CONFIGURED
  else if dgtError = DGT_ERROR_CRC then SystemErrorCode.I2C_CRC_ERROR
  else if dgtError = DGT_ERROR_CLOCK_OFF then SystemErrorCode.DGT_NOT_CONNECTED
  else SystemErrorCode.UNKNOWN_ERROR

/-- The error mapping exactly as the claim words it: `I2C_COMM` to
`I2C_COMMUNICATION_ERROR`, `TIMEOUT`/`NO_ACK` to `COMMAND_TIMEOUT`,
`NOT_CONFIGURED` to `DGT_NOT_CONFIGURED`, `CRC` to `I2C_CRC_ERROR`,
`CLOCK_OFF` to `DGT_NOT_CONNECTED`, and every other value to
`UNKNOWN_ERROR`. -/
def claimedErrorMapping (dgtError : Int) : SystemErrorCode :=
  if dgtError = DGT_ERROR_I2C_COMM then SystemErrorCode.I2C_COMMUNICATION_ERROR
  else if dgtError = DGT_ERROR_TIMEOUT ∨ dgtError = DGT_ERROR_NO_ACK then
    SystemErrorCode.COMMAND_TIMEOUT
  else if dgtError = DGT_ERROR_NOT_CONFIGURED then SystemErrorCode.DGT_NOT_CONFIGURED
  else if dgtError = DGT_ERROR_CRC then SystemErrorCode.I2C_CRC_ERROR
  else if dgtError = DGT_ERROR_CLOCK_OFF then SystemErrorCode.DGT_NOT_CONNECTED
  else SystemErrorCode.UNKNOWN_ERROR

/-- The claim's mapping amended by the single point the code forces:
`I2C_INIT` also maps to `I2C_COMMUNICATION_ERROR`. -/
def claimedErrorMappingAmended (dgtError : Int) : SystemErrorCode :=
  if dgtError = DGT_ERROR_I2C_COMM ∨ dgtError = DGT_ERROR_I2C_INIT then
    SystemErrorCode.I2C_COMMUNICATION_ERROR
  else claimedErrorMapping dgtError

/-- Counterexample to C6 as stated: the task maps `DGT_ERROR_I2C_INIT`
(-1) to `I2C_COMMUNICATION_ERROR`, while the claim's mapping sends every
value outside its six named cases to `UNKNOWN_ERROR`. -/
theorem mapDGTError_counterexample :
    mapDGTErrorToSystemError DGT_ERROR_I2C_INIT =
      SystemErrorCode.I2C_COMMUNICATION_ERROR ∧
    claimedErrorMapping DGT_ERROR_I2C_INIT = SystemErrorCode.UNKNOWN_ERROR ∧
    SystemErrorCode.I2C_COMMUNICATION_ERROR ≠ SystemErrorCode.UNKNOWN_ERROR := by
  refine ⟨by decide, by decide, by decide⟩

/-- C6 (amended): the task's translation agrees everywhere with the
claim's mapping extended by `I2C_INIT` mapping to
`I2C_COMMUNICATION_ERROR`; in particular every error value outside the
seven named cases maps to `UNKNOWN_ERROR`. -/
theorem mapDGTError_matches_amended_mapping (dgtError : Int) :
    mapDGTErrorToSystemError dgtError = claimedErrorMappingAmended dgtError := by
  unfold mapDGTErrorToSystemError claimedErrorMappingAmended claimedErrorMapping
  by_cases h1 : dgtError = DGT_ERROR_I2C_COMM ∨ dgtError = DGT_ERROR_I2C_INIT
  · rw [if_pos h1, if_pos h1]
  · rw [if_neg h1, if_neg h1, if_neg (fun h => h1 (Or.inl h))]

/-! ## processCommand (QueueManager.cpp lines 732-771) -/

/-- What `I2CTaskManager::processCommand` does with one dequeued raw
command: nothing visible (silent drop), an error response, or dispatch
to `executeCommand`. -/
inductive CommandOutcome where
  | silent
  | errorResponse (code : SystemErrorCode)
  | dispatched (command : String)
deriving DecidableEq

/-- `I2CTaskManager::processCommand` after the JSON library returns: the
parse result is abstracted to the parse-error flag and the extracted
optional `id` and `command` strings; `dgtConnected` is the task's
`isDGT3000Connected()` gate (the task sets that connection state flag
and its configured flag together at every assignment, so the gate is
equivalent to the clock being configured). -/
def processCommand (parseOk : Bool) (id : Option String) (command : Option String)
    (dgtConnected : Bool) : CommandOutcome :=
  if !parseOk then
    match id with
    | some _ => CommandOutcome.errorResponse SystemErrorCode.JSON_PARSE_ERROR
    | none => CommandOutcome.silent
  else
    match id, command with
    | none, _ => CommandOutcome.silent
    | some _, none => CommandOutcome.errorResponse SystemErrorCode.JSON_INVALID_COMMAND
    | some _, some cmd =>
      if cmd ≠ "getStatus" ∧ !dgtConnected then
        CommandOutcome.errorResponse SystemErrorCode.DGT_NOT_CONFIGURED
      else CommandOutcome.dispatched cmd

/-- C5: (1) a payload without an `id` field is dropped with no response;
(2) a parsed payload with an `id` but no `command` field gets a
`JSON_INVALID_COMMAND` error response; (3) any command other than
`getStatus` issued while the clock is not configured gets a
`DGT_NOT_CONFIGURED` error response instead of being dispatched. -/
theorem processCommand_contract :
    (∀ (parseOk : Bool) (command : Option String) (dgtConnected : Bool),
      processCommand parseOk none command dgtConnected = CommandOutcome.silent) ∧
    (∀ (id : String) (dgtConnected : Bool),
      processCommand true (some id) none dgtConnected =
        CommandOutcome.errorResponse SystemErrorCode.JSON_INVALID_COMMAND) ∧
    (∀ (id command : String), command ≠ "getStatus" →
      processCommand true (some id) (some command) false =
        CommandOutcome.errorResponse SystemErrorCode.DGT_NOT_CONFIGURED) := by
  refine ⟨?_, ?_, ?_⟩
  · intro parseOk command dgtConnected
    cases parseOk <;> rfl
  · intro id dgtConnected
    rfl
  · intro id command hcmd
    simp [processCommand, hcmd]

/-- Witness for `processCommand_contract`: the `setTime` command on an
unconfigured clock is refused with `DGT_NOT_CONFIGURED`, an id-less
payload is silent, and an id-only payload gets `JSON_INVALID_COMMAND`. -/
theorem processCommand_contract_witness :
    processCommand true none (some "setTime") true = CommandOutcome.silent ∧
    processCommand true (some "c1") none true =
      CommandOutcome.errorResponse SystemErrorCode.JSON_INVALID_COMMAND ∧
    processCommand true (some "c1") (some "setTime") false =
      CommandOutcome.errorResponse SystemErrorCode.DGT_NOT_CONFIGURED := by
  exact ⟨processCommand_contract.1 true (some "setTime") true,
    processCommand_contract.2.1 "c1" true,
    processCommand_contract.2.2 "c1" "setTime" (by decide)⟩

/-! ## handleButtonRepeat (QueueManager.cpp lines 1019-1070) -/

/-- The `_buttonMonitoring` record of the task. -/
structure ButtonMonitoring where
  buttonRepeatActive : Bool
  lastButtonState : Nat
  lastButtonTime : Nat
  buttonRepeatCount : Nat
deriving DecidableEq

/-- `I2CTaskManager::handleButtonRepeat` as a step function on the
monitor state, taking the polled raw button state and the current
millisecond clock; the second component is the emitted repeat event
`(buttonCode, repeatCount)` (always carrying `isRepeat = true`), if
any.  Times are modelled as monotonic `Nat` milliseconds. -/
def handleButtonRepeat (m : ButtonMonitoring) (currentButtonState now : Nat) :
    ButtonMonitoring × Option (Nat × Nat) :=
  let mainButtonsState := currentButtonState &&& 31
  if mainButtonsState ≠ 0 then
    let m1 := if !m.buttonRepeatActive then
        ⟨true, mainButtonsState, now, 0⟩
      else m
    if m1.lastButtonState = mainButtonsState then
      let holdDuration := now - m1.lastButtonTime
      let repeatThreshold := if m1.buttonRepeatCount = 0 then 800 else 400
      if repeatThreshold < holdDuration then
        (⟨m1.buttonRepeatActive, m1.lastButtonState, now, m1.buttonRepeatCount + 1⟩,
          some (mainButtonsState, m1.buttonRepeatCount + 1))
      else (m1, none)
    else (⟨false, m1.lastButtonState, m1.lastButtonTime, 0⟩, none)
  else (⟨false, m.lastButtonState, m.lastButtonTime, 0⟩, none)

/-- C9: for a held main-button mask (raw state masked with 0x1F),
(1) a fresh hold arms the monitor at the current time with count 0 and
no event; (2) while armed on an unchanged mask, no repeat fires at hold
durations up to the threshold — 800 ms before the first repeat, 400 ms
after it; (3) crossing the threshold fires a repeat carrying the mask
and a count incremented by one (so the first repeat carries 1), and
rebases the timer; (4) a changed non-zero mask resets the monitor with
no event; (5) release to zero resets the monitor with no event. -/
theorem handleButtonRepeat_contract (m : ButtonMonitoring) (bs now : Nat) :
    (bs &&& 31 ≠ 0 → m.buttonRepeatActive = false →
      handleButtonRepeat m bs now = (⟨true, bs &&& 31, now, 0⟩, none)) ∧
    (bs &&& 31 ≠ 0 → m.buttonRepeatActive = true → m.lastButtonState = bs &&& 31 →
      now - m.lastButtonTime ≤ (if m.buttonRepeatCount = 0 then 800 else 400) →
      handleButtonRepeat m bs now = (m, none)) ∧
    (bs &&& 31 ≠ 0 → m.buttonRepeatActive = true → m.lastButtonState = bs &&& 31 →
      (if m.buttonRepeatCount = 0 then 800 else 400) < now - m.lastButtonTime →
      handleButtonRepeat m bs now =
        (⟨true, m.lastButtonState, now, m.buttonRepeatCount + 1⟩,
          some (bs &&& 31, m.buttonRepeatCount + 1))) ∧
    (bs &&& 31 ≠ 0 → m.buttonRepeatActive = true → m.lastButtonState ≠ bs &&& 31 →
      handleButtonRepeat m bs now =
        (⟨false, m.lastButtonState, m.lastButtonTime, 0⟩, none)) ∧
    (bs &&& 31 = 0 →
      handleButtonRepeat m bs now =
        (⟨false, m.lastButtonState, m.lastButtonTime, 0⟩, none)) := by
  obtain ⟨act, lastState, lastTime, count⟩ := m
  refine ⟨?_, ?_, ?_, ?_, ?_⟩
  · intro hmask hact
    simp only at hact
    subst hact
    unfold handleButtonRepeat
    split_ifs <;> simp_all
  · intro hmask hact hstate hhold
    simp only at hact hstate hhold
    subst hact hstate
    unfold handleButtonRepeat
    split_ifs at hhold ⊢ <;> simp_all
  · intro hmask hact hstate hhold
    simp only at hact hstate hhold
    subst hact hstate
    unfold handleButtonRepeat
    split_ifs at hhold ⊢ <;> simp_all
  · intro hmask hact hstate
    simp only at hact hstate
    subst hact
    unfold handleButtonRepeat
    split_ifs <;> simp_all
  · intro hmask
    unfold handleButtonRepeat
    rw [if_neg (by omega : ¬ bs &&& 31 ≠ 0)]

/-- Witness for `handleButtonRepeat_contract`: holding play/pause (0x04)
armed at t = 0, polling at t = 801 fires the first repeat with count 1;
polling the armed state at t = 800 fires nothing; a release to zero
resets the monitor. -/
theorem handleButtonRepeat_contract_witness :
    handleButtonRepeat ⟨true, 4, 0, 0⟩ 4 801 = (⟨true, 4, 801, 1⟩, some (4, 1)) ∧
    handleButtonRepeat ⟨true, 4, 0, 0⟩ 4 800 = (⟨true, 4, 0, 0⟩, none) ∧
    handleButtonRepeat ⟨true, 4, 0, 1⟩ 0 900 = (⟨false, 4, 0, 0⟩, none) := by
  exact ⟨(handleButtonRepeat_contract ⟨true, 4, 0, 0⟩ 4 801).2.2.1 (by decide) rfl rfl
      (by decide),
    (handleButtonRepeat_contract ⟨true, 4, 0, 0⟩ 4 800).2.1 (by decide) rfl rfl
      (by decide),
    (handleButtonRepeat_contract ⟨true, 4, 0, 1⟩ 0 900).2.2.2.2 (by decide)⟩

end DGT3000Gateway
